import Mathlib

/-!
Shallow embedding of the aiogram-scenario finite-state-machine engine
(`aiogram_scenario/fsm/fsm.py` and its collaborators) together with proofs
about its transition table, magazine history log, locking discipline and
transition orchestration.

Python dicts are embedded as insertion-ordered association lists, errors as
an `Except` over the exception taxonomy, and the asynchronous methods as
pure functions that also return the trace of the externally visible actions
they perform.
-/

/-- A state of the FSM graph (`fsm/state.py`, which is not under `src/`).
Modelled from the spec: identity is the name string, states are
value-comparable by name, `is_initial` marks the initial state, and
`raw_value` is the serialized form handed to the backend session store. -/
structure AbstractState where
  name : String
  is_initial : Bool
  raw_value : String
deriving DecidableEq, Repr

/-- Python equality of states, used both for the `==` check in
`add_transition` and for dict-key comparison: states are value-comparable
by name (spec, section 3). -/
def stateEq (a b : AbstractState) : Bool := a.name == b.name

/-- A signal handler: an opaque Python callback. `id` models object
identity (distinct functions may share a `name`); `name` models
`__name__` as used by the CSV export. -/
structure SignalHandler where
  id : Nat
  name : String
deriving DecidableEq, Repr

/-- The exception taxonomy of `aiogram_scenario/exceptions`
(`exceptions/transition.py` is under `src/`, the other classes follow the
spec taxonomy). `transitionLockingError` carries the source state, the
destination state and the actor identifiers, exactly as the class in
`exceptions/transition.py` does. `keyError` models the raw Python
`KeyError` raised by a plain dict lookup such as
`self._transitions[source_state][signal_handler]`. `hookError` stands for
an arbitrary exception escaping a state lifecycle hook. -/
inductive FSMError where
  | initialStateError (msg : String)
  | settingInitialStateError (msg : String)
  | addingTransitionError (msg : String)
  | transitionError (msg : String)
  | transitionLockingError (source_state destination_state : AbstractState)
      (user_id chat_id : Option Int)
  | magazineInitializationError
  | stateNotFoundError (msg : String)
  | exportCSVError (msg : String)
  | hookError (state : String) (phase : String)
  | keyError (key : String)
deriving DecidableEq, Repr

instance {ε α : Type} [DecidableEq ε] [DecidableEq α] : DecidableEq (Except ε α) := fun x y =>
  match x, y with
  | .ok a, .ok b =>
    if h : a = b then isTrue (by rw [h]) else isFalse (by intro hc; cases hc; exact h rfl)
  | .error a, .error b =>
    if h : a = b then isTrue (by rw [h]) else isFalse (by intro hc; cases hc; exact h rfl)
  | .ok _, .error _ => isFalse (by intro hc; cases hc)
  | .error _, .ok _ => isFalse (by intro hc; cases hc)

/-- True exactly when the computation failed with `AddingTransitionError`. -/
def isAddingTransitionErr {α : Type} : Except FSMError α → Bool
  | .error (.addingTransitionError _) => true
  | _ => false

/-- True exactly when the computation failed with `StateNotFoundError`. -/
def isStateNotFoundErr {α : Type} : Except FSMError α → Bool
  | .error (.stateNotFoundError _) => true
  | _ => false

/-- The fields of `FiniteStateMachine` (`fsm/fsm.py`, lines 19-26) that the
transition table consists of: `_initial_state`, `_transitions` (a dict from
source state to a dict from signal handler to destination state) and
`_states_mapping` (a dict from state name to state). -/
structure FiniteStateMachine where
  initial_state : Option AbstractState
  transitions : List (AbstractState × List (SignalHandler × AbstractState))
  states_mapping : List (String × AbstractState)
deriving DecidableEq, Repr

/-- The empty machine produced by `FiniteStateMachine.__init__`. -/
def emptyFSM : FiniteStateMachine :=
  { initial_state := none, transitions := [], states_mapping := [] }

/-- Dict lookup keyed by states: Python hashes and compares state keys by
name, so the first key with the same name wins. -/
def lookupState {α : Type} (l : List (AbstractState × α)) (s : AbstractState) : Option α :=
  match l with
  | [] => none
  | (k, v) :: rest => if stateEq k s then some v else lookupState rest s

/-- Dict lookup keyed by signal handlers (Python object identity). -/
def lookupSig {α : Type} (l : List (SignalHandler × α)) (f : SignalHandler) : Option α :=
  match l with
  | [] => none
  | (k, v) :: rest => if k = f then some v else lookupSig rest f

/-- Dict lookup keyed by strings. -/
def lookupStr {α : Type} (l : List (String × α)) (s : String) : Option α :=
  match l with
  | [] => none
  | (k, v) :: rest => if k = s then some v else lookupStr rest s

/-- Python dict assignment `d[k] = v` for a state-keyed dict: an existing
key keeps its position and key object, a new key is appended. -/
def setStateAssoc {α : Type} (l : List (AbstractState × α)) (s : AbstractState) (v : α) :
    List (AbstractState × α) :=
  match l with
  | [] => [(s, v)]
  | (k, w) :: rest =>
    if stateEq k s then (k, v) :: rest else (k, w) :: setStateAssoc rest s v

/-- Python dict assignment `d[k] = v` for a string-keyed dict. -/
def setStrAssoc {α : Type} (l : List (String × α)) (s : String) (v : α) :
    List (String × α) :=
  match l with
  | [] => [(s, v)]
  | (k, w) :: rest =>
    if k = s then (k, v) :: rest else (k, w) :: setStrAssoc rest s v

/-- The `source_states` property (`fsm/fsm.py`, lines 36-39):
`list(self._transitions.keys())`. -/
def FiniteStateMachine.source_states (t : FiniteStateMachine) : List AbstractState :=
  t.transitions.map Prod.fst

/-- Message of the self-transition rejection in `add_transition`. -/
def selfTransitionMsg : String := "source state is the same as destination state!"

/-- Message of the duplicate-initial-source rejection in `add_transition`. -/
def duplicateInitialMsg : String := "initial state has already been added earlier!"

/-- Message of the duplicate-signal rejection in `add_transition`. -/
def duplicateSignalMsg : String :=
  "transition for the signal handler is already defined in this state!"

/-- `FiniteStateMachine.add_transition` (`fsm/fsm.py`, lines 53-72).
Rejects a self transition; for a new source state, rejects a second
initial source and otherwise creates the inner dict and registers the
source in `_states_mapping`; for an existing source state, rejects a
signal handler that is already mapped. Finally stores the destination
under the (source, signal) pair. -/
def add_transition (t : FiniteStateMachine) (source_state : AbstractState)
    (signal_handler : SignalHandler) (destination_state : AbstractState) :
    Except FSMError FiniteStateMachine :=
  if stateEq source_state destination_state then
    .error (.addingTransitionError selfTransitionMsg)
  else
    match lookupState t.transitions source_state with
    | none =>
      if source_state.is_initial && t.source_states.any (fun i => i.is_initial) then
        .error (.addingTransitionError duplicateInitialMsg)
      else
        .ok { t with
              transitions := t.transitions ++ [(source_state, [(signal_handler, destination_state)])],
              states_mapping := setStrAssoc t.states_mapping source_state.name source_state }
    | some handlers =>
      if (lookupSig handlers signal_handler).isSome then
        .error (.addingTransitionError duplicateSignalMsg)
      else
        .ok { t with
              transitions := setStateAssoc t.transitions source_state
                (handlers ++ [(signal_handler, destination_state)]) }

/-- The two-level mapping `self._transitions[source][signal]` as a total
lookup returning `Option`. -/
def lookupPair (t : FiniteStateMachine) (s : AbstractState) (f : SignalHandler) :
    Option AbstractState :=
  match lookupState t.transitions s with
  | none => none
  | some hs => lookupSig hs f

/-- Resolution of a (source state, signal) pair to its destination, as
performed by `execute_next_transition` (`fsm/fsm.py`, lines 161-162):
the plain dict indexing `self._transitions[source_state][signal_handler]`,
whose failure mode is a Python `KeyError` carrying the missing key. -/
def resolveSignal (t : FiniteStateMachine) (s : AbstractState) (f : SignalHandler) :
    Except FSMError AbstractState :=
  match lookupState t.transitions s with
  | none => .error (.keyError s.name)
  | some hs =>
    match lookupSig hs f with
    | none => .error (.keyError f.name)
    | some d => .ok d

/-- The source states of the table that are marked initial. -/
def initialSources (t : FiniteStateMachine) : List AbstractState :=
  t.source_states.filter (fun s => s.is_initial)

section TableLemmas

lemma stateEq_self (s : AbstractState) : stateEq s s = true := by
  simp [stateEq]

lemma lookupState_append_self {α : Type} (l : List (AbstractState × α))
    (s : AbstractState) (v : α) (h : lookupState l s = none) :
    lookupState (l ++ [(s, v)]) s = some v := by
  induction l with
  | nil => simp [lookupState, stateEq_self]
  | cons p rest ih =>
    obtain ⟨k, w⟩ := p
    by_cases hk : stateEq k s
    · simp [lookupState, hk] at h
    · simp [lookupState, hk] at h ⊢
      exact ih h

lemma lookupSig_append_self {α : Type} (l : List (SignalHandler × α))
    (f : SignalHandler) (v : α) (h : lookupSig l f = none) :
    lookupSig (l ++ [(f, v)]) f = some v := by
  induction l with
  | nil => simp [lookupSig]
  | cons p rest ih =>
    obtain ⟨k, w⟩ := p
    by_cases hk : k = f
    · simp [lookupSig, hk] at h
    · simp [lookupSig, hk] at h ⊢
      exact ih h

lemma lookupState_setStateAssoc_self {α : Type} (l : List (AbstractState × α))
    (s : AbstractState) (v : α) :
    lookupState (setStateAssoc l s v) s = some v := by
  induction l with
  | nil => simp [setStateAssoc, lookupState, stateEq_self]
  | cons p rest ih =>
    obtain ⟨k, w⟩ := p
    by_cases hk : stateEq k s
    · simp [setStateAssoc, lookupState, hk]
    · simp [setStateAssoc, lookupState, hk]
      exact ih

lemma setStateAssoc_keys_of_found {α : Type} (l : List (AbstractState × α))
    (s : AbstractState) (v : α) (hs : α)
    (h : lookupState l s = some hs) :
    (setStateAssoc l s v).map Prod.fst = l.map Prod.fst := by
  induction l with
  | nil => simp [lookupState] at h
  | cons p rest ih =>
    obtain ⟨k, w⟩ := p
    by_cases hk : stateEq k s
    · simp [setStateAssoc, hk]
    · simp [lookupState, hk] at h
      simp [setStateAssoc, hk]
      exact ih h

/-- A successful `add_transition` leaves the (source, signal) pair mapped
to the destination it registered. -/
lemma add_transition_ok_lookupPair (t t' : FiniteStateMachine)
    (s : AbstractState) (f : SignalHandler) (d : AbstractState)
    (h : add_transition t s f d = .ok t') :
    lookupPair t' s f = some d := by
  unfold add_transition at h
  by_cases hsd : stateEq s d
  · simp [hsd] at h
  · simp only [hsd, Bool.false_eq_true, if_false] at h
    cases hfound : lookupState t.transitions s with
    | none =>
      simp only [hfound] at h
      by_cases hinit : s.is_initial && t.source_states.any (fun i => i.is_initial)
      · simp [hinit] at h
      · simp only [hinit, Bool.false_eq_true, if_false, Except.ok.injEq] at h
        subst h
        unfold lookupPair
        simp only
        rw [lookupState_append_self _ _ _ hfound]
        simp [lookupSig]
    | some hs =>
      simp only [hfound] at h
      by_cases hdup : (lookupSig hs f).isSome
      · simp [hdup] at h
      · simp only [hdup, Bool.false_eq_true, if_false, Except.ok.injEq] at h
        subst h
        unfold lookupPair
        simp only
        rw [lookupState_setStateAssoc_self]
        exact lookupSig_append_self _ _ _ (Option.not_isSome_iff_eq_none.mp hdup)

/-- A successful `add_transition` implies the source and destination were
not equal. -/
lemma add_transition_ok_ne (t t' : FiniteStateMachine)
    (s : AbstractState) (f : SignalHandler) (d : AbstractState)
    (h : add_transition t s f d = .ok t') :
    stateEq s d = false := by
  unfold add_transition at h
  by_cases hsd : stateEq s d
  · simp [hsd] at h
  · simpa using hsd

/-- If the pair is already mapped, a further `add_transition` for it fails
with `AddingTransitionError` (whatever the destination argument is). -/
lemma add_transition_dup_fails (t : FiniteStateMachine)
    (s : AbstractState) (f : SignalHandler) (d : AbstractState)
    (h : lookupPair t s f = some (d)) (d2 : AbstractState) :
    isAddingTransitionErr (add_transition t s f d2) = true := by
  unfold lookupPair at h
  cases hfound : lookupState t.transitions s with
  | none => simp [hfound] at h
  | some hs =>
    simp only [hfound] at h
    unfold add_transition
    by_cases hsd : stateEq s d2
    · simp [hsd, isAddingTransitionErr]
    · simp only [hsd, Bool.false_eq_true, if_false, hfound]
      have : (lookupSig hs f).isSome := by
        rw [h]; rfl
      simp [this, isAddingTransitionErr]

end TableLemmas

section ConcreteStates

/-- A concrete non-initial state named A. -/
def stA : AbstractState := { name := "A", is_initial := false, raw_value := "raw_A" }

/-- A concrete non-initial state named B. -/
def stB : AbstractState := { name := "B", is_initial := false, raw_value := "raw_B" }

/-- A concrete state named C that is marked initial. -/
def stC : AbstractState := { name := "C", is_initial := true, raw_value := "raw_C" }

/-- A concrete non-initial state named D. -/
def stD : AbstractState := { name := "D", is_initial := false, raw_value := "raw_D" }

/-- A second concrete state marked initial, distinct from C. -/
def stE : AbstractState := { name := "E", is_initial := true, raw_value := "raw_E" }

/-- A concrete signal handler. -/
def sigF : SignalHandler := { id := 0, name := "sig" }

/-- A second, distinct concrete signal handler. -/
def sigG : SignalHandler := { id := 1, name := "sig_g" }

/-- The table obtained from the empty machine by registering A -sig-> B. -/
def tabA : FiniteStateMachine :=
  { initial_state := none,
    transitions := [(stA, [(sigF, stB)])],
    states_mapping := [("A", stA)] }

/-- The table obtained from `tabA` by registering C -sig_g-> D, where C is
marked initial. -/
def tabAC : FiniteStateMachine :=
  { initial_state := none,
    transitions := [(stA, [(sigF, stB)]), (stC, [(sigG, stD)])],
    states_mapping := [("A", stA), ("C", stC)] }

end ConcreteStates

lemma filter_initial_nil_of_any_false (l : List AbstractState)
    (h : l.any (fun i => i.is_initial) = false) :
    l.filter (fun s => s.is_initial) = [] := by
  induction l with
  | nil => simp
  | cons a rest ih =>
    simp only [List.any_cons, Bool.or_eq_false_iff] at h
    obtain ⟨h1, h2⟩ := h
    simp [List.filter_cons, h1, ih h2]

/-- Claim C7: registering a self transition (source equal to destination,
where state equality is comparison by name) always fails with
`AddingTransitionError`, whatever the signal handler and whatever the
current contents of the table. -/
theorem C7_self_transition_always_fails (t : FiniteStateMachine)
    (s : AbstractState) (f : SignalHandler) (d : AbstractState)
    (h : stateEq s d = true) :
    add_transition t s f d = .error (.addingTransitionError selfTransitionMsg) := by
  unfold add_transition
  simp [h]

/-- Witness for C7 at concrete inputs: a state is equal to itself, so the
registration fails. -/
theorem C7_self_transition_always_fails_witness :
    stateEq stA stA = true ∧
    add_transition emptyFSM stA sigF stA =
      .error (.addingTransitionError selfTransitionMsg) :=
  ⟨by decide, C7_self_transition_always_fails emptyFSM stA sigF stA (by decide)⟩

/-- Claim C5: after a first successful registration of (source, signal)
with destination d1, a second `add_transition` for the same pair with a
different destination d2 fails with `AddingTransitionError`, and the table
still maps the pair to d1. -/
theorem C5_second_destination_fails (t t' : FiniteStateMachine)
    (s : AbstractState) (f : SignalHandler) (d1 d2 : AbstractState)
    (hne : d1 ≠ d2)
    (h : add_transition t s f d1 = .ok t') :
    isAddingTransitionErr (add_transition t' s f d2) = true ∧
    lookupPair t' s f = some d1 := by
  have hl := add_transition_ok_lookupPair t t' s f d1 h
  exact ⟨add_transition_dup_fails t' s f d1 hl d2, hl⟩

/-- Witness for C5 at concrete inputs: registering A -sig-> B and then
A -sig-> D fails on the second call and keeps the mapping to B. -/
theorem C5_second_destination_fails_witness :
    stB ≠ stD ∧ add_transition emptyFSM stA sigF stB = .ok tabA ∧
    (isAddingTransitionErr (add_transition tabA stA sigF stD) = true ∧
     lookupPair tabA stA sigF = some stB) :=
  ⟨by decide, by decide,
   C5_second_destination_fails emptyFSM tabA stA sigF stB stD (by decide) (by decide)⟩

/-- Claim C10: `add_transition` is not idempotent: re-registering an
already registered (source, signal) pair fails with
`AddingTransitionError` even when the destination is identical to the one
already registered. -/
theorem C10_reregistration_same_destination_fails (t t' : FiniteStateMachine)
    (s : AbstractState) (f : SignalHandler) (d : AbstractState)
    (h : add_transition t s f d = .ok t') :
    isAddingTransitionErr (add_transition t' s f d) = true := by
  have hl := add_transition_ok_lookupPair t t' s f d h
  exact add_transition_dup_fails t' s f d hl d

/-- Witness for C10 at concrete inputs: registering A -sig-> B twice fails
on the second call. -/
theorem C10_reregistration_same_destination_fails_witness :
    add_transition emptyFSM stA sigF stB = .ok tabA ∧
    isAddingTransitionErr (add_transition tabA stA sigF stB) = true :=
  ⟨by decide, C10_reregistration_same_destination_fails emptyFSM tabA stA sigF stB (by decide)⟩

/-- Counterexample to claim C6 as stated: the table reachable by
registering the non-initial source A has zero initial source states (so
the invariant is not "exactly one"), and after then registering the
initial source C the unique initial source state is C, which is the
second source state added, not the first. -/
theorem C6_counterexample :
    add_transition emptyFSM stA sigF stB = .ok tabA ∧
    initialSources tabA = [] ∧
    add_transition tabA stC sigG stD = .ok tabAC ∧
    initialSources tabAC = [stC] ∧
    tabAC.source_states = [stA, stC] ∧
    stC.is_initial = true ∧ stA.is_initial = false := by
  refine ⟨by decide, by decide, by decide, by decide, by decide, by decide, by decide⟩

/-- Claim C6 (amended): `add_transition` maintains at most one initial
source state: adding a new source that is marked initial fails with
`AddingTransitionError` when an initial source state already exists, and
a table with at most one initial source keeps at most one after any
successful `add_transition`. The table does not guarantee that any source
is initial, nor that the initial source is the first one added. -/
theorem C6_at_most_one_initial_source (t : FiniteStateMachine)
    (s : AbstractState) (f : SignalHandler) (d : AbstractState) :
    (s.is_initial = true → lookupState t.transitions s = none →
      t.source_states.any (fun i => i.is_initial) = true →
      isAddingTransitionErr (add_transition t s f d) = true) ∧
    ((initialSources t).length ≤ 1 → ∀ t', add_transition t s f d = .ok t' →
      (initialSources t').length ≤ 1) := by
  constructor
  · intro hini hnone hany
    unfold add_transition
    by_cases hsd : stateEq s d
    · simp [hsd, isAddingTransitionErr]
    · simp [hsd, hnone, hini, hany, isAddingTransitionErr]
  · intro hle t' h
    unfold add_transition at h
    by_cases hsd : stateEq s d
    · simp [hsd] at h
    · simp only [hsd, Bool.false_eq_true, if_false] at h
      cases hfound : lookupState t.transitions s with
      | none =>
        simp only [hfound] at h
        by_cases hguard : s.is_initial && t.source_states.any (fun i => i.is_initial)
        · simp [hguard] at h
        · simp only [hguard, Bool.false_eq_true, if_false, Except.ok.injEq] at h
          subst h
          simp only [Bool.and_eq_true, not_and] at hguard
          unfold initialSources FiniteStateMachine.source_states at hle ⊢
          simp only [List.map_append, List.filter_append, List.length_append]
          by_cases hini : s.is_initial
          · have hnot := hguard hini
            unfold FiniteStateMachine.source_states at hnot
            have hany : ((t.transitions.map Prod.fst).any (fun i => i.is_initial)) = false := by
              cases hany2 : (t.transitions.map Prod.fst).any (fun i => i.is_initial) with
              | false => rfl
              | true => exact absurd hany2 hnot
            rw [filter_initial_nil_of_any_false _ hany]
            simp [hini]
          · simp only [Bool.not_eq_true] at hini
            simp only [List.map_cons, List.map_nil, List.filter_cons, hini,
              Bool.false_eq_true, if_false, List.filter_nil, List.length_nil,
              Nat.add_zero]
            exact hle
      | some hs =>
        simp only [hfound] at h
        by_cases hdup : (lookupSig hs f).isSome
        · simp [hdup] at h
        · simp only [hdup, Bool.false_eq_true, if_false, Except.ok.injEq] at h
          subst h
          unfold initialSources FiniteStateMachine.source_states at hle ⊢
          rw [setStateAssoc_keys_of_found _ _ _ _ hfound]
          exact hle

/-- Witness for C6 (amended) at concrete inputs: adding the new initial
source E to a table that already contains the initial source C fails. -/
theorem C6_at_most_one_initial_source_witness :
    (stE.is_initial = true ∧ lookupState tabAC.transitions stE = none ∧
     tabAC.source_states.any (fun i => i.is_initial) = true) ∧
    isAddingTransitionErr (add_transition tabAC stE sigF stB) = true :=
  ⟨⟨by decide, by decide, by decide⟩,
   (C6_at_most_one_initial_source tabAC stE sigF stB).1 (by decide) (by decide) (by decide)⟩

/-- The actor key: the (user_id, chat_id) pair identifying whose FSM
instance is being transitioned. -/
abbrev ActorKey := Option Int × Option Int

/-- Dict lookup keyed by actor keys. -/
def lookupKey {α : Type} (l : List (ActorKey × α)) (k : ActorKey) : Option α :=
  match l with
  | [] => none
  | (k2, v) :: rest => if k2 = k then some v else lookupKey rest k

/-- Dict assignment keyed by actor keys. -/
def setKeyAssoc {α : Type} (l : List (ActorKey × α)) (k : ActorKey) (v : α) :
    List (ActorKey × α) :=
  match l with
  | [] => [(k, v)]
  | (k2, w) :: rest =>
    if k2 = k then (k2, v) :: rest else (k2, w) :: setKeyAssoc rest k v

/-- Removal of one held lock key, as performed by the scoped guard on
exit. -/
def removeKey (l : List ActorKey) (k : ActorKey) : List ActorKey :=
  match l with
  | [] => []
  | a :: rest => if a = k then rest else a :: removeKey rest k

/-- Modelled from the spec: the magazine (`fsm/magazine.py` is not under
`src/`). Per-actor identity key = (user_id, chat_id); content = the loaded
ordered log of state names (`states`, `none` while unloaded) plus an
uncommitted staging slot (`staged`). -/
structure Magazine where
  user_id : Option Int
  chat_id : Option Int
  states : Option (List String)
  staged : Option String
deriving DecidableEq, Repr

/-- Modelled from the spec: `is_loaded` is true once `load()` (or
initialization) has succeeded. -/
def Magazine.is_loaded (m : Magazine) : Bool := m.states.isSome

/-- Modelled from the spec: `load()` fetches the persisted log for the
actor key from the backend store; if none exists it raises
`MagazineInitializationError` rather than silently creating one. -/
def Magazine.load (m : Magazine) (store : List (ActorKey × List String)) :
    Except FSMError Magazine :=
  match lookupKey store (m.user_id, m.chat_id) with
  | none => .error .magazineInitializationError
  | some log => .ok { m with states := some log, staged := none }

/-- Modelled from the spec: `initialize(initial_state_name)` creates a
fresh single-entry log for the actor key confirming it to the store. -/
def Magazine.initLog (m : Magazine) (name : String)
    (store : List (ActorKey × List String)) :
    Magazine × List (ActorKey × List String) :=
  ({ m with states := some [name], staged := none },
   setKeyAssoc store (m.user_id, m.chat_id) [name])

/-- Modelled from the spec: `set(state_name)` stages a pending append and
does not touch the backend store. -/
def Magazine.set (m : Magazine) (name : String) : Magazine :=
  { m with staged := some name }

/-- Modelled from the spec: `commit()` durably appends the staged entry to
the backend-store log for the actor key; it fails if the magazine is not
loaded or nothing is staged. -/
def Magazine.commit (m : Magazine) (store : List (ActorKey × List String)) :
    Except FSMError (Magazine × List (ActorKey × List String)) :=
  match m.states, m.staged with
  | none, _ => .error (.transitionError "magazine is not loaded!")
  | some _, none => .error (.transitionError "nothing is staged for commit!")
  | some log, some s =>
    .ok ({ m with states := some (log ++ [s]), staged := none },
         setKeyAssoc store (m.user_id, m.chat_id) (log ++ [s]))

/-- Modelled from the spec: the in-memory (post-load, post-stage) view of
the log that the read properties range over. -/
def Magazine.view (m : Magazine) : List String :=
  m.states.getD [] ++ m.staged.toList

/-- Modelled from the spec: `current_state` is the last entry of the view. -/
def Magazine.current_state (m : Magazine) : Option String :=
  m.view.getLast?

/-- Modelled from the spec: `penultimate_state` is the second-to-last
entry, or `none` when fewer than two entries exist. -/
def Magazine.penultimate_state (m : Magazine) : Option String :=
  if m.view.length < 2 then none else m.view.get? (m.view.length - 2)

/-- `FiniteStateMachine.get_magazine` (`fsm/fsm.py`, lines 199-201):
a fresh, unloaded magazine bound to the actor key. -/
def get_magazine (user_id chat_id : Option Int) : Magazine :=
  { user_id := user_id, chat_id := chat_id, states := none, staged := none }

/-- The externally visible actions a transition performs, in order. -/
inductive TraceEvent where
  | exitHook (state : String)
  | enterHook (state : String)
  | persistState (raw : String)
  | magazineSet (state : String)
  | magazineCommit
deriving DecidableEq, Repr

/-- The world a transition runs against: the held locks of the lock
registry, the backend magazine store, and the dispatcher session-state
store written by `_set_state`. -/
structure Env where
  locks : List ActorKey
  store : List (ActorKey × List String)
  session : List (ActorKey × String)
deriving DecidableEq, Repr

/-- The result of one engine call: the Python return-or-raise outcome, the
ordered trace of externally visible actions, and the final world and
magazine. -/
structure Outcome where
  result : Except FSMError Unit
  trace : List TraceEvent
  env : Env
  magazine : Magazine
deriving DecidableEq, Repr

/-- `FiniteStateMachine.execute_transition` (`fsm/fsm.py`, lines 81-109).
Requires the magazine to be loaded, acquires the per-actor lock, invokes
the exit hook of the source and the enter hook of the destination, writes
the destination to the session-state store (`_set_state`, using
`raw_value`), stages and commits the destination name in the magazine,
and releases the lock on every exit path. The lock registry
(`fsm/locking.py` is not under `src/`) is modelled from the spec: a second
acquire for an actor key that is already held fails fast with
`TransitionLockingError`. The outcomes of the two lifecycle hooks are
modelled by the `exitOk` and `enterOk` parameters; a failing hook raises
`hookError`, which propagates after the lock is released. -/
def execute_transition (env : Env) (source_state destination_state : AbstractState)
    (magazine : Magazine) (user_id chat_id : Option Int)
    (exitOk enterOk : Bool) : Outcome :=
  if !magazine.is_loaded then
    { result := .error (.transitionError "magazine is not loaded!"),
      trace := [], env := env, magazine := magazine }
  else if env.locks.contains (user_id, chat_id) then
    { result := .error (.transitionLockingError source_state destination_state user_id chat_id),
      trace := [], env := env, magazine := magazine }
  else
    let locks1 := (user_id, chat_id) :: env.locks
    if !exitOk then
      { result := .error (.hookError source_state.name "exit"),
        trace := [.exitHook source_state.name],
        env := { env with locks := removeKey locks1 (user_id, chat_id) },
        magazine := magazine }
    else if !enterOk then
      { result := .error (.hookError destination_state.name "enter"),
        trace := [.exitHook source_state.name, .enterHook destination_state.name],
        env := { env with locks := removeKey locks1 (user_id, chat_id) },
        magazine := magazine }
    else
      let env1 : Env :=
        { env with
          locks := locks1
          session := setKeyAssoc env.session (user_id, chat_id) destination_state.raw_value }
      let mag1 := magazine.set destination_state.name
      match mag1.commit env1.store with
      | .error e =>
        { result := .error e,
          trace := [.exitHook source_state.name, .enterHook destination_state.name,
                    .persistState destination_state.raw_value, .magazineSet destination_state.name],
          env := { env1 with locks := removeKey locks1 (user_id, chat_id) },
          magazine := mag1 }
      | .ok (mag2, store2) =>
        { result := .ok (),
          trace := [.exitHook source_state.name, .enterHook destination_state.name,
                    .persistState destination_state.raw_value, .magazineSet destination_state.name,
                    .magazineCommit],
          env := { env1 with locks := removeKey locks1 (user_id, chat_id), store := store2 },
          magazine := mag2 }

lemma removeKey_cons_self (k : ActorKey) (l : List ActorKey) :
    removeKey (k :: l) k = l := by
  simp [removeKey]

/-- A concrete world with no held lock and a one-entry log for actor
(1, 2). -/
def envFree : Env :=
  { locks := [], store := [(((some 1 : Option Int), (some 2 : Option Int)), ["A"])], session := [] }

/-- The same world as `envFree` but with the lock of actor (1, 2) held. -/
def envLocked : Env :=
  { locks := [((some 1 : Option Int), (some 2 : Option Int))],
    store := [(((some 1 : Option Int), (some 2 : Option Int)), ["A"])], session := [] }

/-- A concrete loaded magazine of actor (1, 2) whose log is the single
entry A. -/
def magLoaded : Magazine :=
  { user_id := some 1, chat_id := some 2, states := some ["A"], staged := none }

/-- Claim C1: `execute_transition` fails when the magazine is not loaded,
and otherwise (here with the actor lock free and both hooks succeeding, so
that no step raises) performs exactly, and in this order: the exit hook of
the source state, the enter hook of the destination state, the persist of
the destination to the session-state store, and the staging plus commit of
the destination name in the magazine. -/
theorem C1_execute_transition_sequence (env : Env)
    (source_state destination_state : AbstractState) (magazine : Magazine)
    (user_id chat_id : Option Int) (exitOk enterOk : Bool) :
    (magazine.is_loaded = false →
      execute_transition env source_state destination_state magazine user_id chat_id exitOk enterOk =
        { result := .error (.transitionError "magazine is not loaded!"),
          trace := [], env := env, magazine := magazine }) ∧
    (magazine.is_loaded = true →
      env.locks.contains (user_id, chat_id) = false →
      ((execute_transition env source_state destination_state magazine user_id chat_id true true).result =
          .ok () ∧
       (execute_transition env source_state destination_state magazine user_id chat_id true true).trace =
         [.exitHook source_state.name, .enterHook destination_state.name,
          .persistState destination_state.raw_value, .magazineSet destination_state.name,
          .magazineCommit])) := by
  constructor
  · intro hnl
    unfold execute_transition
    simp [hnl]
  · intro hl hfree
    have hfree2 : (user_id, chat_id) ∉ env.locks := by simpa using hfree
    cases hstates : magazine.states with
    | none => simp [Magazine.is_loaded, hstates] at hl
    | some log =>
      unfold execute_transition
      simp [Magazine.is_loaded, hstates, hfree2, Magazine.commit, Magazine.set]

/-- Witness for C1 at concrete inputs: a loaded magazine with a free lock
runs the five actions in order. -/
theorem C1_execute_transition_sequence_witness :
    (magLoaded.is_loaded = true ∧
     envFree.locks.contains ((some 1 : Option Int), (some 2 : Option Int)) = false) ∧
    ((execute_transition envFree stA stB magLoaded (some 1) (some 2) true true).result = .ok () ∧
     (execute_transition envFree stA stB magLoaded (some 1) (some 2) true true).trace =
       [.exitHook stA.name, .enterHook stB.name, .persistState stB.raw_value,
        .magazineSet stB.name, .magazineCommit]) :=
  ⟨⟨by decide, by decide⟩,
   (C1_execute_transition_sequence envFree stA stB magLoaded (some 1) (some 2) true true).2
     (by decide) (by decide)⟩

/-- Claim C9: while the actor key is already held, a second
`execute_transition` for the same actor key fails fast with a
`TransitionLockingError` carrying the source state, the destination state,
the user_id and the chat_id, performing no hook call at all (empty trace)
and changing nothing; and on every exit path of `execute_transition` the
set of held locks ends as it began (the acquired lock is always
released). -/
theorem C9_locking_fail_fast_and_release (env : Env)
    (source_state destination_state : AbstractState) (magazine : Magazine)
    (user_id chat_id : Option Int) (exitOk enterOk : Bool) :
    (magazine.is_loaded = true →
      env.locks.contains (user_id, chat_id) = true →
      execute_transition env source_state destination_state magazine user_id chat_id exitOk enterOk =
        { result := .error (.transitionLockingError source_state destination_state user_id chat_id),
          trace := [], env := env, magazine := magazine }) ∧
    (execute_transition env source_state destination_state magazine user_id chat_id exitOk enterOk).env.locks =
      env.locks := by
  constructor
  · intro hl hheld
    have hheld2 : (user_id, chat_id) ∈ env.locks := by simpa using hheld
    unfold execute_transition
    simp [hl, hheld2]
  · unfold execute_transition
    by_cases hl : magazine.is_loaded
    · by_cases hheld : (user_id, chat_id) ∈ env.locks
      · simp [hl, hheld]
      · simp only [hl, Bool.not_true, Bool.false_eq_true, if_false]
        rw [if_neg (by simpa using hheld)]
        by_cases hexit : exitOk
        · by_cases henter : enterOk
          · simp only [hexit, henter, Bool.not_true, Bool.false_eq_true, if_false]
            split <;> simp [removeKey_cons_self]
          · simp [hexit, henter, removeKey_cons_self]
        · simp [hexit, removeKey_cons_self]
    · simp [hl]

/-- Witness for C9 at concrete inputs: with the actor key already held,
the call fails with the locking error carrying all four identifiers. -/
theorem C9_locking_fail_fast_and_release_witness :
    (magLoaded.is_loaded = true ∧
     envLocked.locks.contains ((some 1 : Option Int), (some 2 : Option Int)) = true) ∧
    execute_transition envLocked stA stB magLoaded (some 1) (some 2) true true =
      { result := .error (.transitionLockingError stA stB (some 1) (some 2)),
        trace := [], env := envLocked, magazine := magLoaded } :=
  ⟨⟨by decide, by decide⟩,
   (C9_locking_fail_fast_and_release envLocked stA stB magLoaded (some 1) (some 2) true true).1
     (by decide) (by decide)⟩

/-- A magazine freshly loaded with the given log (what `load()` produces
for an actor whose persisted log is `log`). -/
def loadedMag (user_id chat_id : Option Int) (log : List String) : Magazine :=
  { user_id := user_id, chat_id := chat_id, states := some log, staged := none }

/-- `FiniteStateMachine.execute_back_transition` (`fsm/fsm.py`, lines
174-197): creates the actor magazine and loads it with no lazy
initialization, so a load failure propagates; fails with `TransitionError`
when `penultimate_state` is `None`; resolves the source from
`current_state` and the destination from the penultimate name through
`_states_mapping` (plain dict indexing, whose failure is a `KeyError`);
and delegates to `execute_transition`. -/
def execute_back_transition (fsm : FiniteStateMachine) (env : Env)
    (user_id chat_id : Option Int) (exitOk enterOk : Bool) : Outcome :=
  let magazine := get_magazine user_id chat_id
  match magazine.load env.store with
  | .error e => { result := .error e, trace := [], env := env, magazine := magazine }
  | .ok mag =>
    match mag.penultimate_state with
    | none =>
      { result := .error (.transitionError "there are not enough states in the magazine to return!"),
        trace := [], env := env, magazine := mag }
    | some p =>
      match mag.current_state with
      | none =>
        { result := .error (.keyError "None"), trace := [], env := env, magazine := mag }
      | some c =>
        match lookupStr fsm.states_mapping c with
        | none => { result := .error (.keyError c), trace := [], env := env, magazine := mag }
        | some source_state =>
          match lookupStr fsm.states_mapping p with
          | none => { result := .error (.keyError p), trace := [], env := env, magazine := mag }
          | some destination_state =>
            execute_transition env source_state destination_state mag user_id chat_id exitOk enterOk

/-- The body of `execute_next_transition` after the magazine is available
(`fsm/fsm.py`, lines 161-172): resolve the source from `current_state` via
`_states_mapping`, the destination via
`_transitions[source_state][signal_handler]`, and delegate to
`execute_transition`. -/
def next_transition_core (fsm : FiniteStateMachine) (env : Env) (mag : Magazine)
    (signal_handler : SignalHandler) (user_id chat_id : Option Int)
    (exitOk enterOk : Bool) : Outcome :=
  match mag.current_state with
  | none => { result := .error (.keyError "None"), trace := [], env := env, magazine := mag }
  | some c =>
    match lookupStr fsm.states_mapping c with
    | none => { result := .error (.keyError c), trace := [], env := env, magazine := mag }
    | some source_state =>
      match resolveSignal fsm source_state signal_handler with
      | .error e => { result := .error e, trace := [], env := env, magazine := mag }
      | .ok destination_state =>
        execute_transition env source_state destination_state mag user_id chat_id exitOk enterOk

/-- `FiniteStateMachine.execute_next_transition` (`fsm/fsm.py`, lines
149-172): creates and loads the actor magazine, catching exactly
`MagazineInitializationError` locally and initializing the magazine with
the name of the initial state (the `initial_state` property raises
`InitialStateError` when unset); everything else runs uncaught. -/
def execute_next_transition (fsm : FiniteStateMachine) (env : Env)
    (signal_handler : SignalHandler) (user_id chat_id : Option Int)
    (exitOk enterOk : Bool) : Outcome :=
  let magazine := get_magazine user_id chat_id
  match magazine.load env.store with
  | .error .magazineInitializationError =>
    match fsm.initial_state with
    | none =>
      { result := .error (.initialStateError "initial state not set!"),
        trace := [], env := env, magazine := magazine }
    | some init =>
      let p := magazine.initLog init.name env.store
      next_transition_core fsm { env with store := p.2 } p.1 signal_handler
        user_id chat_id exitOk enterOk
  | .error e => { result := .error e, trace := [], env := env, magazine := magazine }
  | .ok mag => next_transition_core fsm env mag signal_handler user_id chat_id exitOk enterOk

section EnginePropagation

lemma commit_error_ne_initialization (m : Magazine)
    (store : List (ActorKey × List String)) (e : FSMError)
    (h : m.commit store = .error e) : e ≠ .magazineInitializationError := by
  unfold Magazine.commit at h
  cases hs : m.states with
  | none =>
    simp [hs] at h
    simp [← h]
  | some log =>
    cases hg : m.staged with
    | none =>
      simp [hs, hg] at h
      simp [← h]
    | some s => simp [hs, hg] at h

lemma execute_transition_result_ne_initialization (env : Env)
    (source_state destination_state : AbstractState) (magazine : Magazine)
    (user_id chat_id : Option Int) (exitOk enterOk : Bool) :
    (execute_transition env source_state destination_state magazine user_id chat_id exitOk enterOk).result ≠
      .error .magazineInitializationError := by
  unfold execute_transition
  by_cases hl : magazine.is_loaded
  · by_cases hheld : (user_id, chat_id) ∈ env.locks
    · simp [hl, hheld]
    · simp only [hl, Bool.not_true, Bool.false_eq_true, if_false]
      rw [if_neg (by simpa using hheld)]
      by_cases hexit : exitOk
      · by_cases henter : enterOk
        · simp only [hexit, henter, Bool.not_true, Bool.false_eq_true, if_false]
          split
          · rename_i e hcommit
            have := commit_error_ne_initialization _ _ _ hcommit
            simpa using this
          · simp
        · simp [hexit, henter]
      · simp [hexit]
  · simp [hl]

lemma resolveSignal_error_ne_initialization (t : FiniteStateMachine)
    (s : AbstractState) (f : SignalHandler) (e : FSMError)
    (h : resolveSignal t s f = .error e) : e ≠ .magazineInitializationError := by
  unfold resolveSignal at h
  cases h1 : lookupState t.transitions s with
  | none =>
    simp [h1] at h
    simp [← h]
  | some hs =>
    cases h2 : lookupSig hs f with
    | none =>
      simp [h1, h2] at h
      simp [← h]
    | some d => simp [h1, h2] at h

lemma next_transition_core_ne_initialization (fsm : FiniteStateMachine)
    (env : Env) (mag : Magazine) (signal_handler : SignalHandler)
    (user_id chat_id : Option Int) (exitOk enterOk : Bool) :
    (next_transition_core fsm env mag signal_handler user_id chat_id exitOk enterOk).result ≠
      .error .magazineInitializationError := by
  unfold next_transition_core
  cases hc : mag.current_state with
  | none => simp
  | some c =>
    cases hs : lookupStr fsm.states_mapping c with
    | none => simp [hs]
    | some source_state =>
      cases hr : resolveSignal fsm source_state signal_handler with
      | error e =>
        have h2 := resolveSignal_error_ne_initialization _ _ _ _ hr
        simpa [hs, hr] using h2
      | ok destination_state =>
        simpa [hs, hr] using execute_transition_result_ne_initialization env source_state
          destination_state mag user_id chat_id exitOk enterOk

end EnginePropagation

/-- Claim C2: for every actor key, `execute_back_transition` loads the
magazine with no lazy initialization (a missing log makes
`MagazineInitializationError` propagate), fails with `TransitionError`
when the loaded magazine has no penultimate state, and otherwise delegates
to `execute_transition` with the source resolved from `current_state` and
the destination resolved from the penultimate name. -/
theorem C2_back_transition_loads_and_delegates (fsm : FiniteStateMachine)
    (env : Env) (user_id chat_id : Option Int) (exitOk enterOk : Bool) :
    (lookupKey env.store (user_id, chat_id) = none →
      execute_back_transition fsm env user_id chat_id exitOk enterOk =
        { result := .error .magazineInitializationError, trace := [],
          env := env, magazine := get_magazine user_id chat_id }) ∧
    (∀ log, lookupKey env.store (user_id, chat_id) = some log →
      (loadedMag user_id chat_id log).penultimate_state = none →
      (execute_back_transition fsm env user_id chat_id exitOk enterOk).result =
        .error (.transitionError "there are not enough states in the magazine to return!")) ∧
    (∀ log p c source_state destination_state,
      lookupKey env.store (user_id, chat_id) = some log →
      (loadedMag user_id chat_id log).penultimate_state = some p →
      (loadedMag user_id chat_id log).current_state = some c →
      lookupStr fsm.states_mapping c = some source_state →
      lookupStr fsm.states_mapping p = some destination_state →
      execute_back_transition fsm env user_id chat_id exitOk enterOk =
        execute_transition env source_state destination_state
          (loadedMag user_id chat_id log) user_id chat_id exitOk enterOk) := by
  refine ⟨?_, ?_, ?_⟩
  · intro hstore
    unfold execute_back_transition
    simp [Magazine.load, get_magazine, hstore]
  · intro log hstore hpen
    simp only [loadedMag] at hpen
    unfold execute_back_transition
    simp [Magazine.load, get_magazine, hstore, hpen]
  · intro log p c source_state destination_state hstore hpen hcur hsrc hdst
    simp only [loadedMag] at hpen hcur ⊢
    unfold execute_back_transition
    simp [Magazine.load, get_magazine, hstore, hpen, hcur, hsrc, hdst]

/-- A concrete table whose name mapping knows A and B and whose graph has
A -sig-> B and B -sig-> A, with initial state C. -/
def fsmBack : FiniteStateMachine :=
  { initial_state := some stC,
    transitions := [(stA, [(sigF, stB)]), (stB, [(sigF, stA)])],
    states_mapping := [("A", stA), ("B", stB)] }

/-- A concrete world whose store holds the two-entry log [A, B] for actor
(1, 2), with no lock held. -/
def envTwo : Env :=
  { locks := [],
    store := [(((some 1 : Option Int), (some 2 : Option Int)), ["A", "B"])],
    session := [] }

/-- Witness for C2 at concrete inputs: with log [A, B], the retreat
delegates to a transition from B back to A. -/
theorem C2_back_transition_loads_and_delegates_witness :
    (lookupKey envTwo.store ((some 1 : Option Int), (some 2 : Option Int)) = some ["A", "B"] ∧
     (loadedMag (some 1) (some 2) ["A", "B"]).penultimate_state = some "A" ∧
     (loadedMag (some 1) (some 2) ["A", "B"]).current_state = some "B" ∧
     lookupStr fsmBack.states_mapping "B" = some stB ∧
     lookupStr fsmBack.states_mapping "A" = some stA) ∧
    execute_back_transition fsmBack envTwo (some 1) (some 2) true true =
      execute_transition envTwo stB stA (loadedMag (some 1) (some 2) ["A", "B"])
        (some 1) (some 2) true true :=
  ⟨⟨by decide, by decide, by decide, by decide, by decide⟩,
   (C2_back_transition_loads_and_delegates fsmBack envTwo (some 1) (some 2) true true).2.2
     ["A", "B"] "A" "B" stB stA (by decide) (by decide) (by decide) (by decide) (by decide)⟩

/-- Claim C3: `execute_next_transition` is the single self-healing path:
its result is never `MagazineInitializationError` (on a missing log it
catches that error and initializes the magazine with the initial state
name, then proceeds with the body), while a present log is passed to the
body unchanged, so every error arising after the load propagates
unswallowed. -/
theorem C3_next_transition_self_healing (fsm : FiniteStateMachine) (env : Env)
    (signal_handler : SignalHandler) (user_id chat_id : Option Int)
    (exitOk enterOk : Bool) :
    ((execute_next_transition fsm env signal_handler user_id chat_id exitOk enterOk).result ≠
      .error .magazineInitializationError) ∧
    (∀ init, lookupKey env.store (user_id, chat_id) = none →
      fsm.initial_state = some init →
      execute_next_transition fsm env signal_handler user_id chat_id exitOk enterOk =
        next_transition_core fsm
          { env with store := setKeyAssoc env.store (user_id, chat_id) [init.name] }
          (loadedMag user_id chat_id [init.name]) signal_handler user_id chat_id exitOk enterOk) ∧
    (∀ log, lookupKey env.store (user_id, chat_id) = some log →
      execute_next_transition fsm env signal_handler user_id chat_id exitOk enterOk =
        next_transition_core fsm env (loadedMag user_id chat_id log) signal_handler
          user_id chat_id exitOk enterOk) := by
  have h2 : ∀ init, lookupKey env.store (user_id, chat_id) = none →
      fsm.initial_state = some init →
      execute_next_transition fsm env signal_handler user_id chat_id exitOk enterOk =
        next_transition_core fsm
          { env with store := setKeyAssoc env.store (user_id, chat_id) [init.name] }
          (loadedMag user_id chat_id [init.name]) signal_handler user_id chat_id exitOk enterOk := by
    intro init hstore hinit
    unfold execute_next_transition
    simp [Magazine.load, get_magazine, hstore, hinit, Magazine.initLog, loadedMag]
  have h3 : ∀ log, lookupKey env.store (user_id, chat_id) = some log →
      execute_next_transition fsm env signal_handler user_id chat_id exitOk enterOk =
        next_transition_core fsm env (loadedMag user_id chat_id log) signal_handler
          user_id chat_id exitOk enterOk := by
    intro log hstore
    unfold execute_next_transition
    simp [Magazine.load, get_magazine, hstore, loadedMag]
  refine ⟨?_, h2, h3⟩
  cases hstore : lookupKey env.store (user_id, chat_id) with
  | none =>
    cases hinit : fsm.initial_state with
    | none =>
      unfold execute_next_transition
      simp [Magazine.load, get_magazine, hstore, hinit]
    | some init =>
      rw [h2 init hstore hinit]
      exact next_transition_core_ne_initialization fsm _ _ signal_handler
        user_id chat_id exitOk enterOk
  | some log =>
    rw [h3 log hstore]
    exact next_transition_core_ne_initialization fsm env _ signal_handler
      user_id chat_id exitOk enterOk

/-- A concrete world with nothing persisted and no lock held. -/
def envEmpty : Env := { locks := [], store := [], session := [] }

/-- Witness for C3 at concrete inputs: with no persisted log, the call
initializes the magazine with the initial state name C and proceeds with
the body. -/
theorem C3_next_transition_self_healing_witness :
    (lookupKey envEmpty.store ((some 1 : Option Int), (some 2 : Option Int)) = none ∧
     fsmBack.initial_state = some stC) ∧
    execute_next_transition fsmBack envEmpty sigF (some 1) (some 2) true true =
      next_transition_core fsmBack
        { envEmpty with
          store := setKeyAssoc envEmpty.store ((some 1 : Option Int), (some 2 : Option Int)) [stC.name] }
        (loadedMag (some 1) (some 2) [stC.name]) sigF (some 1) (some 2) true true :=
  ⟨⟨by decide, by decide⟩,
   (C3_next_transition_self_healing fsmBack envEmpty sigF (some 1) (some 2) true true).2.1
     stC (by decide) (by decide)⟩

/-- Counterexample to claim C4 as stated: on a concrete pair with no
registered mapping (here the empty table), resolution fails with a plain
Python `KeyError` from the dict indexing, not with `StateNotFoundError`. -/
theorem C4_counterexample :
    resolveSignal emptyFSM stA sigF = .error (.keyError "A") ∧
    isStateNotFoundErr (resolveSignal emptyFSM stA sigF) = false := by
  exact ⟨by decide, by decide⟩

/-- Claim C4 (amended): for every table, resolving a (source state,
signal) pair is deterministic (it is a function of the table and the
pair), returns the registered destination for every defined pair — in
particular the destination just registered by a successful
`add_transition` — and fails for every pair with no registered mapping,
with a Python `KeyError` carrying the missing key rather than a
`StateNotFoundError`. -/
theorem C4_resolve_defined_and_undefined (t : FiniteStateMachine)
    (s : AbstractState) (f : SignalHandler) :
    (∀ hs d, lookupState t.transitions s = some hs → lookupSig hs f = some d →
      resolveSignal t s f = .ok d) ∧
    (∀ d t', add_transition t s f d = .ok t' → resolveSignal t' s f = .ok d) ∧
    (lookupState t.transitions s = none →
      resolveSignal t s f = .error (.keyError s.name)) ∧
    (∀ hs, lookupState t.transitions s = some hs → lookupSig hs f = none →
      resolveSignal t s f = .error (.keyError f.name)) := by
  refine ⟨?_, ?_, ?_, ?_⟩
  · intro hs d h1 h2
    unfold resolveSignal
    simp [h1, h2]
  · intro d t' hadd
    have hl := add_transition_ok_lookupPair t t' s f d hadd
    unfold lookupPair at hl
    unfold resolveSignal
    cases h1 : lookupState t'.transitions s with
    | none => simp [h1] at hl
    | some hs =>
      simp only [h1] at hl
      simp [hl]
  · intro h1
    unfold resolveSignal
    simp [h1]
  · intro hs h1 h2
    unfold resolveSignal
    simp [h1, h2]

/-- Witness for C4 (amended) at concrete inputs: in the table A -sig-> B,
the defined pair resolves to B and the undefined signal fails with the
`KeyError` carrying its name. -/
theorem C4_resolve_defined_and_undefined_witness :
    (lookupState tabA.transitions stA = some [(sigF, stB)] ∧
     lookupSig [(sigF, stB)] sigF = some stB ∧
     resolveSignal tabA stA sigF = .ok stB) ∧
    (lookupSig [(sigF, stB)] sigG = none ∧
     resolveSignal tabA stA sigG = .error (.keyError sigG.name)) :=
  ⟨⟨by decide, by decide,
    (C4_resolve_defined_and_undefined tabA stA sigF).1 [(sigF, stB)] stB (by decide) (by decide)⟩,
   ⟨by decide,
    (C4_resolve_defined_and_undefined tabA stA sigG).2.2.2 [(sigF, stB)] (by decide) (by decide)⟩⟩

/-- The `_signal_handlers` property (`fsm/fsm.py`, lines 203-210): every
signal handler of the table, in order of first appearance over the source
states in insertion order, without duplicates. -/
def signal_handlers (t : FiniteStateMachine) : List SignalHandler :=
  t.transitions.foldl
    (fun acc p => acc ++ ((p.2.map Prod.fst).filter (fun h => !(acc.contains h)))) []

/-- The Python `str.endswith`, over the code points of the strings. -/
def strEndsWith (s suffix : String) : Bool :=
  List.isSuffixOf suffix.data s.data

/-- The Python slice `s[:-n]`, over the code points of the string. -/
def strDropRight (s : String) (n : Nat) : String :=
  String.mk (s.data.take (s.data.length - n))

/-- The suffix trimming of `export_transitions_to_csv` (`fsm/fsm.py`,
lines 138-143): on every cell but the first of a row, a cell that differs
from `empty_cell` and ends with the literal "State" loses its last five
characters. -/
def cutStateRow (empty_cell : String) (row : List String) : List String :=
  match row with
  | [] => []
  | c0 :: rest =>
    c0 :: rest.map (fun cell =>
      if cell != empty_cell && strEndsWith cell "State" then strDropRight cell 5 else cell)

/-- `FiniteStateMachine.export_transitions_to_csv` (`fsm/fsm.py`, lines
115-147), modelled up to the file write: the rows handed to the CSV
writer. Fails when no transitions are set; otherwise the header row is ""
followed by the keys of `_states_mapping` (the names of the source
states), and there is one row per signal handler holding the
destination-state name per source-state column, or `empty_cell` where no
mapping exists; when `cut_state` is set the trimming applies to every
row, the header included. -/
def export_transitions_to_csv (t : FiniteStateMachine)
    (empty_cell : String) (cut_state : Bool) :
    Except FSMError (List (List String)) :=
  if t.transitions.isEmpty then
    .error (.exportCSVError "no transitions set for export!")
  else
    let header : List String := "" :: t.states_mapping.map Prod.fst
    let body : List (List String) :=
      (signal_handlers t).map (fun h =>
        h.name :: (t.source_states.map (fun s =>
          match lookupPair t s h with
          | none => empty_cell
          | some d => d.name)))
    let rows := header :: body
    if cut_state then .ok (rows.map (cutStateRow empty_cell)) else .ok rows

/-- True exactly when the computation failed. -/
def isErrE {α : Type} : Except FSMError α → Bool
  | .error _ => true
  | _ => false

/-- A concrete state whose name carries the "State" suffix. -/
def stAState : AbstractState :=
  { name := "AState", is_initial := false, raw_value := "raw_AS" }

/-- A second concrete state whose name carries the "State" suffix. -/
def stBState : AbstractState :=
  { name := "BState", is_initial := false, raw_value := "raw_BS" }

/-- The table with the single transition AState -sig-> BState. -/
def tabTrim : FiniteStateMachine :=
  { initial_state := none,
    transitions := [(stAState, [(sigF, stBState)])],
    states_mapping := [("AState", stAState)] }

/-- Counterexample to claim C8 as stated: for the table with states A, B
and the single signal sig: A -> B, the export produces header ["", "A"]
and row ["sig", "B"] — only source states become columns, the destination
B is not a column — and not the claimed header ["", "A", "B"] with row
["sig", "", "B"]. -/
theorem C8_counterexample :
    add_transition emptyFSM stA sigF stB = .ok tabA ∧
    export_transitions_to_csv tabA "" true = .ok [["", "A"], ["sig", "B"]] ∧
    export_transitions_to_csv tabA "" true ≠ .ok [["", "A", "B"], ["sig", "", "B"]] := by
  exact ⟨by decide, by decide, by decide⟩

/-- Claim C8 (amended): CSV export fails when the table has no
transitions and succeeds otherwise; the header row is "" followed by the
source-state names (the keys of `_states_mapping`) and each signal row
holds the destination name per source-state column or `empty_cell`, with
a trailing literal "State" trimmed from every displayed non-empty cell
when trimming is enabled; in particular the table with states A, B and
one signal sig: A -> B yields header ["", "A"] and row ["sig", "B"], and
the same table with states named AState, BState yields header ["", "A"]
and row ["sig", "B"] through trimming. -/
theorem C8_export_rows (t : FiniteStateMachine) (empty_cell : String)
    (cut_state : Bool) :
    (t.transitions = [] →
      export_transitions_to_csv t empty_cell cut_state =
        .error (.exportCSVError "no transitions set for export!")) ∧
    (t.transitions ≠ [] →
      isErrE (export_transitions_to_csv t empty_cell cut_state) = false) ∧
    (export_transitions_to_csv tabA "" true = .ok [["", "A"], ["sig", "B"]] ∧
     export_transitions_to_csv tabTrim "" true = .ok [["", "A"], ["sig", "B"]]) := by
  refine ⟨?_, ?_, by decide, by decide⟩
  · intro h
    unfold export_transitions_to_csv
    simp [h]
  · intro h
    unfold export_transitions_to_csv
    have hne : t.transitions.isEmpty = false := by
      cases ht : t.transitions with
      | nil => exact absurd ht h
      | cons a l => rfl
    cases cut_state with
    | false => simp [hne, isErrE]
    | true => simp [hne, isErrE]

/-- Witness for C8 (amended) at concrete inputs: the empty table fails to
export, and the one-transition table succeeds. -/
theorem C8_export_rows_witness :
    (emptyFSM.transitions = [] ∧
     export_transitions_to_csv emptyFSM "" true =
       .error (.exportCSVError "no transitions set for export!")) ∧
    (tabA.transitions ≠ [] ∧
     isErrE (export_transitions_to_csv tabA "" true) = false) :=
  ⟨⟨by decide, (C8_export_rows emptyFSM "" true).1 (by decide)⟩,
   ⟨by decide, (C8_export_rows tabA "" true).2.1 (by decide)⟩⟩
